import Mathlib

/-!
Verification of the dilux-azure-databases-backup core against its source.

Shallow embedding of the Python source (src/shared/models, src/shared/services,
src/functions/scheduler, src/functions/processor, src/functions/api) in Lean:

* naive `datetime` values become `PyDateTime` records; comparison, subtraction
  and `timestamp()` go through the civil-calendar day number (values are naive
  UTC, exactly how the scheduler's `ensure_naive_utc` normalizes them);
* Azure Table rows become typed `TableEntity` records; a query result is a
  `List TableEntity` in the order Azure Tables yields rows: ascending by
  (PartitionKey, RowKey);
* blob storage becomes a list of (blob name, content type) pairs, the queue a
  message value plus its dequeue count;
* fallible steps (json parsing, the dump subprocess) become `Option`/`Except`
  parameters, `uuid4()` defaults become explicit arguments;
* Python `or` on falsy values ("" , 0, None) is modelled field-by-field.
-/

namespace Dilux

/-! ## Python datetime (naive UTC) -/

/-- A naive `datetime.datetime` value (microsecond precision, no tzinfo).
The scheduler funnels every timestamp through `ensure_naive_utc`, so all
datetimes of the embedded code are naive UTC. -/
structure PyDateTime where
  year : Int
  month : Int
  day : Int
  hour : Int := 0
  minute : Int := 0
  second : Int := 0
  microsecond : Int := 0
deriving DecidableEq, Repr

/-- Day number of the civil date (days since 1970-01-01, Hinnant's algorithm).
For the in-range dates a Python `datetime` can hold (year 1..9999) every
intermediate value is non-negative, so the Lean `Int` division convention
agrees with the C/Python one. -/
def daysFromCivil (dt : PyDateTime) : Int :=
  let y := if dt.month ≤ 2 then dt.year - 1 else dt.year
  let era := (if 0 ≤ y then y else y - 399) / 400
  let yoe := y - era * 400
  let mp := if 2 < dt.month then dt.month - 3 else dt.month + 9
  let doy := (153 * mp + 2) / 5 + dt.day - 1
  let doe := yoe * 365 + yoe / 4 - yoe / 100 + doy
  era * 146097 + doe - 719468

/-- Seconds since the epoch (`dt.timestamp()` for a naive UTC datetime,
dropping the sub-second part). -/
def toSeconds (dt : PyDateTime) : Int :=
  daysFromCivil dt * 86400 + dt.hour * 3600 + dt.minute * 60 + dt.second

/-- Microseconds since the epoch. Python compares and subtracts `datetime`
values field-lexicographically, which for in-range dates is exactly the order
and difference of `toMicros`. -/
def toMicros (dt : PyDateTime) : Int :=
  toSeconds dt * 1000000 + dt.microsecond

/-- Python `datetime.weekday()` (Monday = 0 .. Sunday = 6).
1970-01-01 was a Thursday, i.e. weekday 3. -/
def pyWeekday (dt : PyDateTime) : Int :=
  (daysFromCivil dt + 3) % 7

/-- Ticks of a datetime: `int(dt.timestamp() * 10_000_000)` in
`BackupResult.to_table_entity`, modelled exactly (100 ns units; the float
rounding of the source, below one microsecond = 10 ticks, cannot reorder
microsecond-precision datetimes). -/
def ticksOf (dt : PyDateTime) : Int :=
  toMicros dt * 10

/-- Python `dt.replace(hour=h, minute=m, second=0, microsecond=0)`. -/
def replaceHM (dt : PyDateTime) (h m : Int) : PyDateTime :=
  { dt with hour := h, minute := m, second := 0, microsecond := 0 }

/-- Two-digit zero-padded decimal (strftime `%m`, `%d`, `%H`, `%M`, `%S`). -/
def pad2 (n : Int) : String :=
  if n < 10 then "0" ++ toString n else toString n

/-- Four-digit zero-padded decimal (strftime `%Y` for the years in range). -/
def pad4 (n : Int) : String :=
  if n < 10 then "000" ++ toString n
  else if n < 100 then "00" ++ toString n
  else if n < 1000 then "0" ++ toString n
  else toString n

/-- strftime `%Y-%m-%d` — the history partition key. -/
def dateString (dt : PyDateTime) : String :=
  pad4 dt.year ++ "-" ++ pad2 dt.month ++ "-" ++ pad2 dt.day

/-- strftime `%Y%m%d_%H%M%S` — the blob-name timestamp of the processor. -/
def timestampCompact (dt : PyDateTime) : String :=
  pad4 dt.year ++ pad2 dt.month ++ pad2 dt.day ++ "_" ++
    pad2 dt.hour ++ pad2 dt.minute ++ pad2 dt.second

/-! ## Enums (shared/models) -/

/-- shared/models/database.py `DatabaseType`. -/
inductive DatabaseType where
  | mysql
  | postgresql
  | sqlserver
  | azure_sql
deriving DecidableEq, Repr

/-- The `.value` of the enum member. -/
def DatabaseType.value : DatabaseType → String
  | .mysql => "mysql"
  | .postgresql => "postgresql"
  | .sqlserver => "sqlserver"
  | .azure_sql => "azure_sql"

/-- Source `DatabaseType(s)`: the member with value `s`, or `none` for the
`ValueError` the enum constructor raises. -/
def DatabaseType.ofValue : String → Option DatabaseType
  | "mysql" => some .mysql
  | "postgresql" => some .postgresql
  | "sqlserver" => some .sqlserver
  | "azure_sql" => some .azure_sql
  | _ => none

/-- shared/models/backup.py `BackupStatus`. -/
inductive BackupStatus where
  | pending
  | in_progress
  | completed
  | failed
  | cancelled
deriving DecidableEq, Repr

/-- The `.value` of the enum member. -/
def BackupStatus.value : BackupStatus → String
  | .pending => "pending"
  | .in_progress => "in_progress"
  | .completed => "completed"
  | .failed => "failed"
  | .cancelled => "cancelled"

/-- Source `BackupStatus(s)`: the member with value `s`, or `none` for `ValueError`. -/
def BackupStatus.ofValue : String → Option BackupStatus
  | "pending" => some .pending
  | "in_progress" => some .in_progress
  | "completed" => some .completed
  | "failed" => some .failed
  | "cancelled" => some .cancelled
  | _ => none

/-! ## BackupResult and its table codec (shared/models/backup.py) -/

/-- shared/models/backup.py `BackupResult`. Optional Python fields are
`Option`; `duration_seconds` is a Python float, modelled exactly as `ℚ`. -/
structure BackupResult where
  id : String
  job_id : String
  database_id : String
  database_name : String
  database_type : DatabaseType
  status : BackupStatus := .pending
  started_at : Option PyDateTime := none
  completed_at : Option PyDateTime := none
  duration_seconds : Option ℚ := none
  blob_name : Option String := none
  blob_url : Option String := none
  file_size_bytes : Option Int := none
  file_format : Option String := none
  error_message : Option String := none
  error_details : Option String := none
  retry_count : Int := 0
  triggered_by : String := "scheduler"
  tier : Option String := none
  created_at : PyDateTime
deriving DecidableEq, Repr

/-- A row of the `backuphistory` table as `to_table_entity` writes it.
Datetimes travel as `isoformat()` strings; `isoformat` is injective, never
empty, and `datetime.fromisoformat` inverts it, so a serialized optional
datetime is modelled as `Option PyDateTime` with `none` standing for `""`. -/
structure TableEntity where
  PartitionKey : String
  RowKey : String
  job_id : String
  database_id : String
  database_name : String
  database_type : String
  status : String
  started_at : Option PyDateTime
  completed_at : Option PyDateTime
  duration_seconds : ℚ
  blob_name : String
  blob_url : String
  file_size_bytes : Int
  file_format : String
  error_message : String
  error_details : String
  retry_count : Int
  triggered_by : String
  tier : String
  created_at : PyDateTime
deriving DecidableEq, Repr

/-- Source `DateTime.MaxValue.Ticks` in .NET — the constant `max_ticks` of
`to_table_entity`. -/
def maxTicks : Int := 3155378975999999999

/-- Decimal digit characters; total (argument always < 10 where used). -/
def pyDigitChar : Nat → Char
  | 0 => '0'
  | 1 => '1'
  | 2 => '2'
  | 3 => '3'
  | 4 => '4'
  | 5 => '5'
  | 6 => '6'
  | 7 => '7'
  | 8 => '8'
  | _ => '9'

/-- The `w` decimal digits of `n`, most significant first
(`digitsFixed w n = [n / 10^(w-1) % 10, ..., n % 10]` for `n < 10^w`). -/
def digitsFixed : Nat → Nat → List Nat
  | 0, _ => []
  | w + 1, n => n / 10 ^ w :: digitsFixed w (n % 10 ^ w)

/-- Python `f"{n:019d}"`: 19-character zero-padded decimal. Faithful for
`0 ≤ n < 10^19`, which holds for every inverted tick value of an in-range
`created_at` (`0 ≤ ticks ≤ maxTicks < 10^19`). -/
def fmt019 (n : Int) : String :=
  String.mk ((digitsFixed 19 n.toNat).map pyDigitChar)

/-- Source `BackupResult.to_table_entity` (shared/models/backup.py lines 171-205). -/
def to_table_entity (r : BackupResult) : TableEntity :=
  { PartitionKey := dateString r.created_at
    RowKey := fmt019 (maxTicks - ticksOf r.created_at) ++ "_" ++ r.id
    job_id := r.job_id
    database_id := r.database_id
    database_name := r.database_name
    database_type := r.database_type.value
    status := r.status.value
    started_at := r.started_at
    completed_at := r.completed_at
    duration_seconds := r.duration_seconds.getD 0
    blob_name := r.blob_name.getD ""
    blob_url := r.blob_url.getD ""
    file_size_bytes := r.file_size_bytes.getD 0
    file_format := r.file_format.getD ""
    error_message := r.error_message.getD ""
    error_details := r.error_details.getD ""
    retry_count := r.retry_count
    triggered_by := r.triggered_by
    tier := r.tier.getD ""
    created_at := r.created_at }

/-- Everything after the first `'_'` — Python `row_key.split("_", 1)[1]`. -/
def afterFirstUnderscore : List Char → List Char
  | [] => []
  | c :: cs => if c = '_' then cs else afterFirstUnderscore cs

/-- Source `BackupResult.from_table_entity` (shared/models/backup.py lines 207-245).
`none` models the `ValueError` a bad enum value raises (callers catch it and
skip the row). The `or None` normalizations of falsy stored values are the
explicit `if`s. `created_at` is always present and round-trips through
`isoformat`, so the `or datetime.utcnow()` branch is unreachable. -/
def from_table_entity (e : TableEntity) : Option BackupResult :=
  let rk := e.RowKey
  let backup_id :=
    if rk.data.contains '_' && decide (20 < rk.length) then
      String.mk (afterFirstUnderscore rk.data)
    else rk
  match DatabaseType.ofValue e.database_type, BackupStatus.ofValue e.status with
  | some dbt, some st =>
    some
      { id := backup_id
        job_id := e.job_id
        database_id := e.database_id
        database_name := e.database_name
        database_type := dbt
        status := st
        started_at := e.started_at
        completed_at := e.completed_at
        duration_seconds := if e.duration_seconds = 0 then none else some e.duration_seconds
        blob_name := if e.blob_name = "" then none else some e.blob_name
        blob_url := if e.blob_url = "" then none else some e.blob_url
        file_size_bytes := if e.file_size_bytes = 0 then none else some e.file_size_bytes
        file_format := if e.file_format = "" then none else some e.file_format
        error_message := if e.error_message = "" then none else some e.error_message
        error_details := if e.error_details = "" then none else some e.error_details
        retry_count := e.retry_count
        triggered_by := e.triggered_by
        tier := if e.tier = "" then none else some e.tier
        created_at := e.created_at }
  | _, _ => none

/-! ## History reads (shared/services/storage_service.py) -/

/-- The sort key of every history sort in the source:
`key=lambda x: x.created_at` (datetime order = `toMicros` order). -/
def createdKey (r : BackupResult) : Int := toMicros r.created_at

/-- Stable descending insertion used by `sortByCreatedDesc`. An element is
inserted after every strictly newer element and before equal ones, so earlier
list positions win ties. -/
def insertDescByCreated (x : BackupResult) : List BackupResult → List BackupResult
  | [] => [x]
  | y :: ys =>
    if createdKey x < createdKey y then y :: insertDescByCreated x ys
    else x :: y :: ys

/-- Python `results.sort(key=lambda x: x.created_at, reverse=True)`:
a stable descending sort (CPython's sort is stable and `reverse=True`
reverses each comparison, keeping ties in list order). Any stable sort is
extensionally the same function; this one is insertion sort. -/
def sortByCreatedDesc : List BackupResult → List BackupResult
  | [] => []
  | x :: xs => insertDescByCreated x (sortByCreatedDesc xs)

/-- Source `StorageService.get_backup_history` (storage_service.py lines 384-446) for
the calls the scheduler and the retention pass make (no date filters). The
`table` list carries the rows in the order `query_entities` yields them:
ascending by (PartitionKey, RowKey). The `database_id` filter is the query
filter; rows whose enum values do not parse are skipped (`filterMap`); the
loop breaks once `limit` parsed results are collected — BEFORE the final
descending sort, exactly as in the source. -/
def get_backup_history (table : List TableEntity) (database_id : Option String)
    (limit : Nat) : List BackupResult :=
  let entities :=
    match database_id with
    | some d => table.filter (fun e : TableEntity => e.database_id == d)
    | none => table
  let results := (entities.filterMap from_table_entity).take limit
  sortByCreatedDesc results

/-- The predicate of the loop in `get_last_backup_for_tier`
(scheduler/function_app.py lines 213-217): a completed result whose tier
matches, a tier-less (legacy) result matching tier `"daily"`. -/
def isCompletedForTier (tier : String) (b : BackupResult) : Bool :=
  b.status == .completed &&
    (b.tier == some tier || (b.tier == none && tier == "daily"))

/-- Source `get_last_backup_for_tier` (scheduler/function_app.py lines 189-223):
fetch the history for the database with `limit=100`, return `completed_at` of
the first completed result matching the tier, else `None`. -/
def get_last_backup_for_tier (table : List TableEntity) (database_id tier : String) :
    Option PyDateTime :=
  let history := get_backup_history table (some database_id) 100
  match history.find? (isCompletedForTier tier) with
  | some b => b.completed_at
  | none => none

/-! ## Backup policies (shared/models/backup_policy.py) -/

/-- Source `TierConfig`. Each field of the pydantic model is `Optional` with a
non-None default; on every embedded path the values come from
`BackupPolicy.from_table_entity`, which always fills every field, so the
fields are plain here. `time` keeps its `"HH:MM"` string form. -/
structure TierConfig where
  enabled : Bool := false
  keep_count : Nat := 0
  interval_hours : Int := 1
  time : String := "02:00"
  day_of_week : Int := 0
  day_of_month : Int := 1
  month : Int := 1
deriving DecidableEq, Repr

/-- Digits of a string as a number — `int(s)` for a digit string. -/
def digitsToInt (cs : List Char) : Int :=
  cs.foldl (fun a c => a * 10 + ((c.toNat : Int) - 48)) 0

/-- Python `map(int, scheduled_time.split(":"))` on a pydantic-validated
`"HH:MM"` string (pattern `\d{2}:\d{2}`): the hour and minute. -/
def parse_time (s : String) : Int × Int :=
  let pre := s.data.takeWhile (fun c => c ≠ ':')
  let post := (s.data.dropWhile (fun c => c ≠ ':')).drop 1
  (digitsToInt pre, digitsToInt post)

/-- Source `BackupPolicy` (the fields the embedded code reads; the
created_at/updated_at metadata is untouched by every embedded path). -/
structure BackupPolicy where
  id : String
  name : String
  description : Option String := none
  is_system : Bool := false
  hourly : TierConfig := {}
  daily : TierConfig := {}
  weekly : TierConfig := {}
  monthly : TierConfig := {}
  yearly : TierConfig := {}
deriving DecidableEq, Repr

/-- Source `getattr(policy, tier_name)` for the five tier names the scheduler uses. -/
def tierConfigOf (p : BackupPolicy) : String → TierConfig
  | "hourly" => p.hourly
  | "daily" => p.daily
  | "weekly" => p.weekly
  | "monthly" => p.monthly
  | "yearly" => p.yearly
  | _ => {}

/-- Source `tiers_to_check` of the scheduler (fixed order). -/
def tiers_to_check : List String :=
  ["hourly", "daily", "weekly", "monthly", "yearly"]

/-! ## Tier schedule predicate (scheduler/function_app.py lines 84-186) -/

/-- Source `should_run_tier`. Datetimes are already naive UTC (`ensure_naive_utc` is
the identity on them). The hourly branch divides exactly as the source does:
`(now - last).total_seconds() / 3600 >= interval_hours`, modelled over `ℚ`. -/
def should_run_tier (tier : String) (cfg : TierConfig)
    (last_backup_at : Option PyDateTime) (now : PyDateTime) : Bool :=
  if !cfg.enabled then false
  else
    match last_backup_at with
    | none => true
    | some last =>
      if tier == "hourly" then
        let hours_since : ℚ := ((toMicros now - toMicros last : Int) : ℚ) / 1000000 / 3600
        decide (hours_since ≥ (cfg.interval_hours : ℚ))
      else if tier == "daily" then
        let hm := parse_time cfg.time
        let today_scheduled := replaceHM now hm.1 hm.2
        decide (toMicros now ≥ toMicros today_scheduled ∧
          toMicros last < toMicros today_scheduled)
      else if tier == "weekly" then
        let hm := parse_time cfg.time
        let current_day := (pyWeekday now + 1) % 7
        if current_day ≠ cfg.day_of_week then false
        else
          let today_scheduled := replaceHM now hm.1 hm.2
          decide (toMicros now ≥ toMicros today_scheduled ∧
            toMicros last < toMicros today_scheduled)
      else if tier == "monthly" then
        if now.day ≠ cfg.day_of_month then false
        else
          let hm := parse_time cfg.time
          let today_scheduled := replaceHM now hm.1 hm.2
          decide (toMicros now ≥ toMicros today_scheduled ∧
            toMicros last < toMicros today_scheduled)
      else if tier == "yearly" then
        if now.month ≠ cfg.month ∨ now.day ≠ cfg.day_of_month then false
        else
          let hm := parse_time cfg.time
          let today_scheduled := replaceHM now hm.1 hm.2
          decide (toMicros now ≥ toMicros today_scheduled ∧
            toMicros last < toMicros today_scheduled)
      else false

/-! ## Catalog rows (shared/models/database.py, shared/models/engine.py) -/

/-- Source `DatabaseConfig` (models/database.py). The fields the embedded code
reads. Note what is NOT here: the model declares NO `use_engine_policy`
field — this absence is load-bearing (see `dynamic_scheduler_process_database`
and `cleanup_process_database`). `policy_id` is a plain `str` with default
"production-standard". -/
structure DatabaseConfig where
  id : String
  name : String
  database_type : DatabaseType
  engine_id : Option String := none
  use_engine_credentials : Bool := true
  host : String
  port : Int
  database_name : String
  username : Option String := none
  password_secret_name : Option String := none
  password : Option String := none
  policy_id : String := "production-standard"
  enabled : Bool := true
  backup_destination : Option String := none
  compression : Bool := true
deriving DecidableEq, Repr

/-- Source `Engine` (models/engine.py) — the fields the scheduler and processor
read: credentials to inherit and the default policy id. -/
structure Engine where
  id : String
  username : Option String := none
  password : Option String := none
  policy_id : Option String := none
deriving DecidableEq, Repr

/-- Python truthiness of an optional string (`if engine.username:` etc.). -/
def truthyOpt : Option String → Bool
  | some s => !(s == "")
  | none => false

/-- Source `EngineService.get` — lookup by id (table key is unique). -/
def engine_get (engines : List Engine) (engine_id : String) : Option Engine :=
  engines.find? (fun e => e.id == engine_id)

/-- Source `StorageService.get_backup_policy` — lookup by row key. -/
def get_backup_policy (policies : List BackupPolicy) (policy_id : String) :
    Option BackupPolicy :=
  policies.find? (fun p => p.id == policy_id)

/-- Source `DatabaseConfigService.get` — lookup by id. -/
def config_get (configs : List DatabaseConfig) (database_id : String) :
    Option DatabaseConfig :=
  configs.find? (fun c => c.id == database_id)

/-! ## BackupJob (shared/models/backup.py) -/

/-- Source `BackupJob`. `id` has a `uuid4()` default in the source; it is a
plain field here (the embedded constructors receive it explicitly, and the
scheduler never reads it back). The `created_at` metadata field, which no
embedded path reads, is omitted. -/
structure BackupJob where
  id : String := ""
  database_id : String
  database_name : String
  database_type : DatabaseType
  host : String
  port : Int
  target_database : String
  username : String
  password_secret_name : Option String := none
  compression : Bool := true
  backup_destination : Option String := none
  triggered_by : String := "scheduler"
  tier : Option String := none
  scheduled_at : Option PyDateTime := none
deriving DecidableEq, Repr

/-! ## Scheduler tick (scheduler/function_app.py lines 236-386) -/

/-- Stores and engines a scheduler tick reads. -/
structure SchedulerEnv where
  engines : List Engine
  policies : List BackupPolicy
  historyTable : List TableEntity
deriving Repr

/-- Credential resolution inside the tier loop (lines 329-349): engine
credentials when `use_engine_credentials` and the engine resolves with a
truthy username (secret name becomes `engine-{engine.id}`), otherwise the
database's own username; `none` models the `continue`. -/
def resolve_job_credentials (env : SchedulerEnv) (db : DatabaseConfig) :
    Option (String × Option String) :=
  if db.use_engine_credentials && truthyOpt db.engine_id then
    match engine_get env.engines (db.engine_id.getD "") with
    | some engine =>
      if truthyOpt engine.username then
        some (engine.username.getD "", some ("engine-" ++ engine.id))
      else none
    | none => none
  else
    match db.username with
    | some u => if u = "" then none else some (u, db.password_secret_name)
    | none => none

/-- The `BackupJob(...)` the scheduler constructs (lines 352-366). -/
def scheduler_job (db : DatabaseConfig) (username : String)
    (password_secret_name : Option String) (tier_name : String)
    (now : PyDateTime) : BackupJob :=
  { database_id := db.id
    database_name := db.name
    database_type := db.database_type
    host := db.host
    port := db.port
    target_database := db.database_name
    username := username
    password_secret_name := password_secret_name
    compression := db.compression
    backup_destination := db.backup_destination
    triggered_by := "scheduler"
    tier := some tier_name
    scheduled_at := some now }

/-- The tier-dispatch loop of the scheduler (lines 307-374), embedded for
analysis of the dispatch logic. It is UNREACHABLE at runtime (see
`dynamic_scheduler_process_database`). Returns the queued jobs and the list
of tier names whose `should_run_tier` predicate was actually evaluated.
A disabled tier is skipped; a firing tier whose credentials do not resolve is
`continue`d past (the loop keeps evaluating LATER tiers); a firing tier with
credentials queues one job and `break`s. -/
def scheduler_tier_dispatch_loop (env : SchedulerEnv) (now : PyDateTime)
    (db : DatabaseConfig) (policy : BackupPolicy) :
    List String → List BackupJob × List String
  | [] => ([], [])
  | tier_name :: rest =>
    let cfg := tierConfigOf policy tier_name
    if !cfg.enabled then
      scheduler_tier_dispatch_loop env now db policy rest
    else
      let last_backup := get_last_backup_for_tier env.historyTable db.id tier_name
      if should_run_tier tier_name cfg last_backup now then
        match resolve_job_credentials env db with
        | some cred => ([scheduler_job db cred.1 cred.2 tier_name now], [tier_name])
        | none =>
          let r := scheduler_tier_dispatch_loop env now db policy rest
          (r.1, tier_name :: r.2)
      else
        let r := scheduler_tier_dispatch_loop env now db policy rest
        (r.1, tier_name :: r.2)

/-- The dispatch for one database given its resolved policy (unreachable at
runtime, embedded for analysis): the loop over `tiers_to_check`. -/
def scheduler_tier_dispatch (env : SchedulerEnv) (now : PyDateTime)
    (db : DatabaseConfig) (policy : BackupPolicy) : List BackupJob × List String :=
  scheduler_tier_dispatch_loop env now db policy tiers_to_check

/-- The per-database body of `dynamic_scheduler` (lines 263-380). Its first
conditional evaluates `db_config.use_engine_policy`; `DatabaseConfig`
(models/database.py) declares no such field, so pydantic raises
`AttributeError` before any policy is resolved or any tier is evaluated. The
per-database `except Exception` (line 376) catches it and the loop moves on:
no job is ever queued for any database. The dispatch logic below the raising
line is embedded separately as `scheduler_tier_dispatch`. -/
def dynamic_scheduler_process_database (_env : SchedulerEnv) (_now : PyDateTime)
    (_db : DatabaseConfig) : List BackupJob := []

/-- Source `dynamic_scheduler` (lines 236-386): iterates the enabled databases
(`get_all(enabled_only=True)`) and accumulates the jobs each per-database
body queues. -/
def dynamic_scheduler (env : SchedulerEnv) (now : PyDateTime)
    (databases : List DatabaseConfig) : List BackupJob :=
  (databases.filter (fun d => d.enabled)).foldl
    (fun jobs db => jobs ++ dynamic_scheduler_process_database env now db) []

/-! ## Retention pass (scheduler/function_app.py lines 399-546) -/

/-- One stored blob: name and the content type it was uploaded with.
Containers are not routed in the model (the retention pass and the claims
address blobs by name only). -/
structure BlobItem where
  name : String
  content_type : String
deriving DecidableEq, Repr

/-- Source `StorageService.delete_backup` (storage_service.py lines 190-215):
deletes the named BLOB from blob storage — it touches nothing else, in
particular no history row. -/
def delete_backup (blobs : List BlobItem) (blob_name : String) : List BlobItem :=
  blobs.filter (fun b => b.name ≠ blob_name)

/-- The bucket a completed backup lands in (lines 481-489):
`tier = backup.tier or "unknown"`, then unknown tier names fall into the
`"unknown"` bucket. -/
def cleanup_bucket_name (b : BackupResult) : String :=
  let tier :=
    match b.tier with
    | some s => if s = "" then "unknown" else s
    | none => "unknown"
  if tiers_to_check.contains tier then tier else "unknown"

/-- The named tier bucket of the completed backups, in history order. -/
def tier_bucket (completed : List BackupResult) (t : String) : List BackupResult :=
  completed.filter (fun b => cleanup_bucket_name b == t)

/-- The deletion loop over one tier's excess backups (lines 511-518 and
526-533): for each excess backup with a truthy `blob_name`, delete the blob.
Nothing is removed from the history table. -/
def prune_excess (blobs : List BlobItem) (excess : List BackupResult) : List BlobItem :=
  excess.foldl
    (fun bl b =>
      match b.blob_name with
      | some s => if s = "" then bl else delete_backup bl s
      | none => bl)
    blobs

/-- The retention fragment for one database given its resolved policy
(lines 462-533) — UNREACHABLE at runtime (see `cleanup_process_database`),
embedded for analysis. Fetches the database's history (`limit=10000`),
buckets the completed results by tier, and for each enabled tier deletes the
BLOBS of everything past the newest `keep_count`; the tier-less legacy bucket
is pruned under the daily config. History rows are never deleted. -/
def cleanup_database_backups (table : List TableEntity) (blobs : List BlobItem)
    (policy : BackupPolicy) (db_id : String) : List BlobItem :=
  let all_backups := get_backup_history table (some db_id) 10000
  if all_backups.isEmpty then blobs
  else
    let completed := all_backups.filter (fun b => b.status == .completed)
    let afterTiers :=
      (tiers_to_check.map (fun t => (t, tierConfigOf policy t))).foldl
        (fun bl tc =>
          if !tc.2.enabled then bl
          else
            prune_excess bl
              ((sortByCreatedDesc (tier_bucket completed tc.1)).drop tc.2.keep_count))
        blobs
    let legacy := tier_bucket completed "unknown"
    if !legacy.isEmpty && policy.daily.enabled then
      prune_excess afterTiers
        ((sortByCreatedDesc legacy).drop policy.daily.keep_count)
    else afterTiers

/-- The state the retention pass acts on. -/
structure RetentionState where
  blobs : List BlobItem
  table : List TableEntity
deriving Repr

/-- The per-database body of `cleanup_old_backups` (lines 426-537). Like the
scheduler, its first conditional evaluates `db_config.use_engine_policy`
(line 431) on a `DatabaseConfig` that has no such field: pydantic raises
`AttributeError`, the per-database `except` (line 535) counts an error, and
the state is untouched. The retention fragment below the raising line is
embedded separately as `cleanup_database_backups`. -/
def cleanup_process_database (st : RetentionState) (_db : DatabaseConfig) :
    RetentionState := st

/-- Source `cleanup_old_backups` (lines 399-546): folds the per-database body over
ALL database configs (`get_all()`, not only enabled ones). -/
def cleanup_old_backups (st : RetentionState) (databases : List DatabaseConfig) :
    RetentionState :=
  databases.foldl cleanup_process_database st

/-! ## Blob upload (shared/services/storage_service.py lines 60-97) -/

/-- Source `StorageService.upload_backup`: stores the blob under `blob_name` with
the given content type (`overwrite=True`) and returns the new store together
with the blob url. `content_type` has the source's default
`"application/octet-stream"`; `data` is the stream, of which only the byte
count is observable here. -/
def upload_backup (blobs : List BlobItem) (blob_name : String) (_data : Int)
    (container_name : String) (content_type : String := "application/octet-stream") :
    List BlobItem × String :=
  (blobs.filter (fun b => b.name ≠ blob_name) ++ [⟨blob_name, content_type⟩],
    container_name ++ "/" ++ blob_name)

/-! ## History writes (shared/services/storage_service.py lines 303-324) -/

/-- Source `upsert_entity` of the table client: replace the row with the same
(PartitionKey, RowKey), else append. -/
def upsert_entity (table : List TableEntity) (e : TableEntity) : List TableEntity :=
  if table.any (fun x => x.PartitionKey == e.PartitionKey && x.RowKey == e.RowKey) then
    table.map (fun x =>
      if x.PartitionKey == e.PartitionKey && x.RowKey == e.RowKey then e else x)
  else table ++ [e]

/-- Source `StorageService.save_backup_result`: upsert `to_table_entity result`. -/
def save_backup_result (table : List TableEntity) (r : BackupResult) :
    List TableEntity :=
  upsert_entity table (to_table_entity r)

/-! ## BackupResult lifecycle (shared/models/backup.py lines 134-169) -/

/-- Source `BackupResult.mark_started`. -/
def mark_started (r : BackupResult) (now : PyDateTime) : BackupResult :=
  { r with status := .in_progress, started_at := some now }

/-- Duration in seconds between two datetimes (`.total_seconds()`), exact. -/
def durationSeconds (a b : PyDateTime) : ℚ :=
  ((toMicros b - toMicros a : Int) : ℚ) / 1000000

/-- Source `BackupResult.mark_completed`. -/
def mark_completed (r : BackupResult) (now : PyDateTime) (blob_name blob_url : String)
    (file_size_bytes : Int) (file_format : String) : BackupResult :=
  let r1 := { r with
    status := .completed
    completed_at := some now
    blob_name := some blob_name
    blob_url := some blob_url
    file_size_bytes := some file_size_bytes
    file_format := some file_format }
  match r.started_at with
  | some s => { r1 with duration_seconds := some (durationSeconds s now) }
  | none => r1

/-- Source `BackupResult.mark_failed`. -/
def mark_failed (r : BackupResult) (now : PyDateTime) (error_message : String)
    (error_details : Option String) : BackupResult :=
  let r1 := { r with
    status := .failed
    completed_at := some now
    error_message := some error_message
    error_details := error_details }
  match r.started_at with
  | some s => { r1 with duration_seconds := some (durationSeconds s now) }
  | none => r1

/-! ## Backup processor (processor/function_app.py lines 51-164) -/

/-- A raised Python exception as the except-block observes it:
`str(e)` and `e.__class__.__name__`. -/
structure PyExc where
  message : String
  cls : String
deriving DecidableEq, Repr

/-- Stores the processor reads and writes. -/
structure ProcessorEnv where
  configs : List DatabaseConfig
  engines : List Engine
  blobs : List BlobItem
  table : List TableEntity
  backup_container_name : String := "backups"
deriving Repr

/-- What one queue-trigger invocation leaves behind. `raised` records whether
the handler let an exception escape (it never does: the parse failure
`return`s and the pipeline failure is swallowed by `except`/`finally`). -/
structure ProcessorOutcome where
  table : List TableEntity
  blobs : List BlobItem
  finalResult : Option BackupResult
  raised : Bool
deriving Repr

/-- Azure Functions queue-trigger completion semantics (host behaviour,
modelled from the platform contract, not repository code): the host deletes
the message iff the handler returns without raising. -/
def queue_message_deleted (out : ProcessorOutcome) : Bool := !out.raised

/-- The password lookup of the processor (lines 96-107): engine password when
the config uses engine credentials and the engine resolves, else the
config's own password; `none` when the config is missing. -/
def resolve_processor_password (env : ProcessorEnv) (job : BackupJob) :
    Option String :=
  match config_get env.configs job.database_id with
  | some config =>
    if config.use_engine_credentials && truthyOpt config.engine_id then
      match engine_get env.engines (config.engine_id.getD "") with
      | some db_engine => db_engine.password
      | none => none
    else config.password
  | none => none

/-- The blob name the processor builds (lines 122-128):
`{database_type}/{database_id}/{YYYYMMDD_HHMMSS}.{file_format}`. -/
def processor_blob_name (job : BackupJob) (now : PyDateTime) (file_format : String) :
    String :=
  job.database_type.value ++ "/" ++ job.database_id ++ "/" ++
    timestampCompact now ++ "." ++ file_format

/-- Source `backup_processor` (processor/function_app.py lines 56-164).

* `parsed` is the result of `BackupJob.from_queue_message` (`none` = the
  parse raised: the handler logs and `return`s — nothing written, nothing
  raised);
* `rid` is the fresh `uuid4()` the `BackupResult` default factory draws,
  `now` the tick of `utcnow()` (one value models the closely-spaced reads);
* `engine_outcome` abstracts `engine.execute_backup` — `.ok (size, fmt)` is a
  dump of `size` bytes in format `fmt`, `.error e` any raised exception;
* the `except` block marks the result failed with
  `retry_count = msg.dequeue_count`; the `finally` block saves the final
  result. No branch re-raises, so `raised = false` on every path. -/
def backup_processor (env : ProcessorEnv) (parsed : Option BackupJob) (rid : String)
    (dequeue_count : Int) (now : PyDateTime)
    (engine_outcome : Except PyExc (Int × String)) : ProcessorOutcome :=
  match parsed with
  | none =>
    { table := env.table, blobs := env.blobs, finalResult := none, raised := false }
  | some job =>
    let result0 : BackupResult :=
      { id := rid
        job_id := job.id
        database_id := job.database_id
        database_name := job.database_name
        database_type := job.database_type
        triggered_by := job.triggered_by
        tier := job.tier
        created_at := now }
    let result1 := mark_started result0 now
    let table1 := save_backup_result env.table result1
    let password := resolve_processor_password env job
    if !truthyOpt password then
      let resultF :=
        { mark_failed result1 now "No password available for database"
            (some "ValueError") with
          retry_count := dequeue_count }
      { table := save_backup_result table1 resultF
        blobs := env.blobs
        finalResult := some resultF
        raised := false }
    else
      match engine_outcome with
      | .error exc =>
        let resultF :=
          { mark_failed result1 now exc.message (some exc.cls) with
            retry_count := dequeue_count }
        { table := save_backup_result table1 resultF
          blobs := env.blobs
          finalResult := some resultF
          raised := false }
      | .ok sizeFmt =>
        let blob_name := processor_blob_name job now sizeFmt.2
        let container :=
          match job.backup_destination with
          | some c => if c = "" then env.backup_container_name else c
          | none => env.backup_container_name
        let up := upload_backup env.blobs blob_name sizeFmt.1 container
        let resultC := mark_completed result1 now blob_name up.2 sizeFmt.1 sizeFmt.2
        { table := save_backup_result table1 resultC
          blobs := up.1
          finalResult := some resultC
          raised := false }

/-! ## Policy deletion (storage_service.py lines 1283-1337, api lines 2539-2576) -/

/-- Source `StorageService.delete_backup_policy`: refuse system policies (row kept,
`False`); otherwise delete the row by key, `False` when it does not exist. -/
def storage_delete_backup_policy (policies : List BackupPolicy) (policy_id : String) :
    Bool × List BackupPolicy :=
  match get_backup_policy policies policy_id with
  | some policy =>
    if policy.is_system then (false, policies)
    else (true, policies.filter (fun q => q.id ≠ policy_id))
  | none => (false, policies)

/-- Source `StorageService.get_databases_using_policy`: count of catalog rows with
`policy_id eq '{policy_id}'` (the row stores `policy_id` verbatim). -/
def get_databases_using_policy (databases : List DatabaseConfig) (policy_id : String) :
    Nat :=
  (databases.filter (fun d => d.policy_id == policy_id)).length

/-- An HTTP response of the API: status plus the `error` field of the JSON
body (empty for success). -/
structure ApiResponse where
  status : Nat
  error : String
deriving DecidableEq, Repr

/-- The `DELETE /backup-policies/{policy_id}` handler
(api/function_app.py lines 2539-2576 and onward): 404 for a missing policy,
400 for a system policy, 400 for a policy in use, otherwise delete through
the storage layer (500 if that reports failure, else 200). -/
def api_delete_backup_policy (policies : List BackupPolicy)
    (databases : List DatabaseConfig) (policy_id : String) :
    ApiResponse × List BackupPolicy :=
  match get_backup_policy policies policy_id with
  | none => ({ status := 404, error := "Policy '" ++ policy_id ++ "' not found" }, policies)
  | some policy =>
    if policy.is_system then
      ({ status := 400, error := "System policies cannot be deleted" }, policies)
    else
      let usage_count := get_databases_using_policy databases policy_id
      if 0 < usage_count then
        ({ status := 400
           error := "Policy is in use by " ++ toString usage_count ++
             " database(s). Reassign them first." }, policies)
      else
        let del := storage_delete_backup_policy policies policy_id
        if !del.1 then
          ({ status := 500
             error := "Policy '" ++ policy_id ++ "' could not be deleted" }, del.2)
        else ({ status := 200, error := "" }, del.2)

/-! ## Derived notions used by the statements -/

/-- Lexicographic (ordinal) order on strings — the order Azure Table Storage
iterates row keys in: `List.lt` (head-first character comparison) on the
character lists. -/
def strLexLt (s t : String) : Prop := List.lt s.data t.data

/-- Source `today_scheduled` of the daily/weekly/monthly/yearly branches:
today's date at `cfg.time`. -/
def daily_scheduled (cfg : TierConfig) (now : PyDateTime) : PyDateTime :=
  replaceHM now (parse_time cfg.time).1 (parse_time cfg.time).2

/-- The history rows of one database as `get_backup_history` parses them
(query filter plus row parsing), in table order, before limit and sort. -/
def database_history_rows (table : List TableEntity) (database_id : String) :
    List BackupResult :=
  (table.filter (fun e : TableEntity => e.database_id == database_id)).filterMap
    from_table_entity

/-- The number of completed BackupResults recorded for (database, tier) —
the quantity the retention claim bounds. -/
def completed_count_for_tier (table : List TableEntity) (database_id tier : String) :
    Nat :=
  ((database_history_rows table database_id).filter
    (fun b => b.status == .completed && b.tier == some tier)).length

/-- Python `x or None` on an optional string: collapse falsy `""` to `None`. -/
def normOptStr : Option String → Option String
  | some s => if s = "" then none else some s
  | none => none

/-- Python `x or None` on an optional number: collapse falsy `0` to `None`. -/
def normOptRat : Option ℚ → Option ℚ
  | some q => if q = 0 then none else some q
  | none => none

/-- Python `x or None` on an optional integer: collapse falsy `0` to `None`. -/
def normOptInt : Option Int → Option Int
  | some n => if n = 0 then none else some n
  | none => none

/-- The falsy-collapse the entity codec applies to every optional field:
writing stores `field or ""` / `field or 0`, reading restores `value or None`,
so `Some ""`, `Some 0` and `None` all come back as `None`. -/
def normalize_falsy (r : BackupResult) : BackupResult :=
  { r with
    duration_seconds := normOptRat r.duration_seconds
    blob_name := normOptStr r.blob_name
    blob_url := normOptStr r.blob_url
    file_size_bytes := normOptInt r.file_size_bytes
    file_format := normOptStr r.file_format
    error_message := normOptStr r.error_message
    error_details := normOptStr r.error_details
    tier := normOptStr r.tier }

/-! ## Concrete fixtures for witnesses and counterexamples -/

/-- The seeded `production-standard` policy (backup_policy.py lines 248-262). -/
def samplePolicy : BackupPolicy :=
  { id := "production-standard"
    name := "Production Standard"
    is_system := true
    hourly := { enabled := true, keep_count := 12, interval_hours := 1 }
    daily := { enabled := true, keep_count := 7, time := "02:00" }
    weekly := { enabled := true, keep_count := 4, day_of_week := 0, time := "03:00" }
    monthly := { enabled := true, keep_count := 2, day_of_month := 1, time := "04:00" }
    yearly := { enabled := true, keep_count := 1, month := 1, day_of_month := 1, time := "05:00" } }

/-- The seeded `production-critical` policy (backup_policy.py lines 233-247). -/
def criticalPolicy : BackupPolicy :=
  { id := "production-critical"
    name := "Production Critical"
    is_system := true
    hourly := { enabled := true, keep_count := 24, interval_hours := 1 }
    daily := { enabled := true, keep_count := 15, time := "02:00" }
    weekly := { enabled := true, keep_count := 8, day_of_week := 0, time := "03:00" }
    monthly := { enabled := true, keep_count := 4, day_of_month := 1, time := "04:00" }
    yearly := { enabled := true, keep_count := 2, month := 1, day_of_month := 1, time := "05:00" } }

/-- An enabled database with its own credentials. -/
def sampleDb : DatabaseConfig :=
  { id := "db1"
    name := "appdb"
    database_type := .postgresql
    engine_id := none
    use_engine_credentials := false
    host := "pg.example.com"
    port := 5432
    database_name := "appdb"
    username := some "backup_user"
    password := some "pw"
    policy_id := "production-standard"
    enabled := true
    compression := true }

/-- Datetime 2024-03-15 02:00:00 UTC (a Friday). -/
def sampleNow : PyDateTime := { year := 2024, month := 3, day := 15, hour := 2 }

/-- A scheduler environment: one policy, no engines, empty history. -/
def sampleEnv : SchedulerEnv :=
  { engines := [], policies := [samplePolicy], historyTable := [] }

/-- A custom policy keeping zero daily backups (`keep_count=0, enabled=true`). -/
def keepZeroPolicy : BackupPolicy :=
  { id := "custom-daily0"
    name := "Daily Zero"
    daily := { enabled := true, keep_count := 0, time := "02:00" } }

/-- One completed daily backup of `db1` with a stored blob. -/
def sampleCompletedBackup : BackupResult :=
  { id := "b1"
    job_id := "j1"
    database_id := "db1"
    database_name := "appdb"
    database_type := .postgresql
    status := .completed
    completed_at := some { year := 2024, month := 3, day := 14, hour := 2, second := 30 }
    blob_name := some "postgresql/db1/20240314_020000.sql.gz"
    blob_url := some "backups/postgresql/db1/20240314_020000.sql.gz"
    file_size_bytes := some 1048576
    file_format := some "sql.gz"
    tier := some "daily"
    created_at := { year := 2024, month := 3, day := 14, hour := 2 } }

/-- The history table holding just that backup. -/
def retentionTable : List TableEntity := [to_table_entity sampleCompletedBackup]

/-- The blob store holding that backup's artifact. -/
def retentionBlobs : List BlobItem :=
  [⟨"postgresql/db1/20240314_020000.sql.gz", "application/octet-stream"⟩]

/-- Day-1 history rows for the limit counterexample: 100 completed daily
backups of `db1` on 2024-03-14, the i-th created at microsecond `99 - i`
(so, inside the partition, the rows appear newest-first: ascending RowKey). -/
def oldEntity (i : Nat) : TableEntity :=
  to_table_entity
    { id := "old" ++ toString i
      job_id := "j"
      database_id := "db1"
      database_name := "appdb"
      database_type := .postgresql
      status := .completed
      completed_at := some { year := 2024, month := 3, day := 14, hour := 2, microsecond := ((99 - i : Nat) : Int) }
      blob_name := some "x"
      tier := some "daily"
      created_at := { year := 2024, month := 3, day := 14, hour := 2, microsecond := ((99 - i : Nat) : Int) } }

/-- The most recent completed daily backup of `db1`: 2024-03-15 02:00. -/
def newestBackup : BackupResult :=
  { id := "new1"
    job_id := "j"
    database_id := "db1"
    database_name := "appdb"
    database_type := .postgresql
    status := .completed
    completed_at := some { year := 2024, month := 3, day := 15, hour := 2 }
    blob_name := some "y"
    tier := some "daily"
    created_at := { year := 2024, month := 3, day := 15, hour := 2 } }

/-- A history table with 101 rows for one database, listed in Azure iteration
order: the whole 2024-03-14 partition first (ascending row keys = newest of
that day first), then the 2024-03-15 partition with the newest backup. -/
def limitTable : List TableEntity :=
  (List.range 100).map oldEntity ++ [to_table_entity newestBackup]

/-- A two-row table (well under the limit) for the witness. -/
def smallTable : List TableEntity :=
  [to_table_entity newestBackup, oldEntity 0]

/-- A non-system policy referenced by two databases. -/
def customPolicyW : BackupPolicy :=
  { id := "custom-x", name := "Custom X", daily := { enabled := true, keep_count := 3 } }

/-- A system policy and a custom one, as the policy store would hold them. -/
def policiesW : List BackupPolicy := [criticalPolicy, customPolicyW]

/-- Two catalog rows referencing the custom policy. -/
def databasesW : List DatabaseConfig :=
  [{ sampleDb with id := "db1", policy_id := "custom-x" },
   { sampleDb with id := "db2", policy_id := "custom-x" }]

/-- A processor environment able to resolve `db1`'s password. -/
def procEnv : ProcessorEnv :=
  { configs := [sampleDb]
    engines := []
    blobs := []
    table := [] }

/-- The queue job for `db1`, compression on. -/
def procJob : BackupJob :=
  { id := "job-1"
    database_id := "db1"
    database_name := "appdb"
    database_type := .postgresql
    host := "pg.example.com"
    port := 5432
    target_database := "appdb"
    username := "backup_user"
    compression := true
    tier := some "daily"
    scheduled_at := some sampleNow }

/-- A failed dump: `mysqldump`-style access denial. -/
def procExc : PyExc := { message := "Access denied for user", cls := "BackupExecutionError" }

/-- Outcome of processing `procJob` when the dump fails on first dequeue. -/
def procFailOut : ProcessorOutcome :=
  backup_processor procEnv (some procJob) "rid-1" 1 sampleNow (.error procExc)

/-- Outcome of processing `procJob` when a compressed dump succeeds. -/
def procOkOut : ProcessorOutcome :=
  backup_processor procEnv (some procJob) "rid-2" 1 sampleNow (.ok (2048, "sql.gz"))

/-- An enabled daily tier scheduled at 02:00. -/
def dailyCfgW : TierConfig := { enabled := true, keep_count := 7, time := "02:00" }

/-- An enabled hourly tier with a 2-hour interval. -/
def hourlyCfgW : TierConfig := { enabled := true, keep_count := 12, interval_hours := 2 }

/-- Last daily backup: the day before at 02:00. -/
def lastDailyW : PyDateTime := { year := 2024, month := 3, day := 14, hour := 2 }

/-- Last hourly backup: today at midnight. -/
def lastHourlyW : PyDateTime := { year := 2024, month := 3, day := 15 }

/-- One second before today's scheduled time. -/
def nowEarlyW : PyDateTime :=
  { year := 2024, month := 3, day := 15, hour := 1, minute := 59, second := 59 }

/-- A result whose float duration is exactly 0.0 — a falsy value the entity
codec collapses. -/
def r7zeroDuration : BackupResult :=
  { sampleCompletedBackup with id := "b7", duration_seconds := some 0 }

/-- The earlier of two same-day results (2024-03-14 02:00). -/
def r6early : BackupResult := sampleCompletedBackup

/-- A later result in the same partition (2024-03-14 05:00). -/
def r6late : BackupResult :=
  { sampleCompletedBackup with
    id := "b2"
    created_at := { year := 2024, month := 3, day := 14, hour := 5 } }

/-! ## Helper lemmas -/

lemma foldl_scheduler_acc (env : SchedulerEnv) (now : PyDateTime)
    (l : List DatabaseConfig) (acc : List BackupJob) :
    l.foldl (fun jobs db => jobs ++ dynamic_scheduler_process_database env now db) acc
      = acc := by
  induction l generalizing acc with
  | nil => rfl
  | cons d l ih =>
    rw [List.foldl_cons,
      show acc ++ dynamic_scheduler_process_database env now d = acc from by
        simp [dynamic_scheduler_process_database]]
    exact ih acc

lemma mem_upsert_entity (t : List TableEntity) (e : TableEntity) :
    e ∈ upsert_entity t e := by
  unfold upsert_entity
  split
  next h =>
    obtain ⟨x, hx, hcond⟩ := List.any_eq_true.mp h
    exact List.mem_map.mpr ⟨x, hx, by simp [hcond]⟩
  next =>
    exact List.mem_append.mpr (Or.inr (List.mem_singleton.mpr rfl))

/-! ## Claim theorems -/

/-- C2. The spec says every scheduler tick evaluates the tiers of each
enabled database in order hourly→…→yearly and that the first firing tier
queues exactly one job. In the source, the per-database body first reads
`db_config.use_engine_policy`, a field `DatabaseConfig` does not declare:
pydantic raises `AttributeError`, the per-database handler swallows it, and
NO database ever reaches tier evaluation — a tick queues nothing, ever
(first conjunct). The remaining conjuncts show the bug is not vacuous: at
the failing input the hourly predicate fires, and the (unreachable) dispatch
fragment the claim cites would queue exactly one hourly job and stop. -/
theorem dynamic_scheduler_queues_nothing :
    (∀ (env : SchedulerEnv) (now : PyDateTime) (dbs : List DatabaseConfig),
      dynamic_scheduler env now dbs = [])
    ∧ should_run_tier "hourly" samplePolicy.hourly none sampleNow = true
    ∧ scheduler_tier_dispatch sampleEnv sampleNow sampleDb samplePolicy =
        ([scheduler_job sampleDb "backup_user" none "hourly" sampleNow], ["hourly"]) := by
  refine ⟨fun env now dbs => ?_, by decide, by decide⟩
  unfold dynamic_scheduler
  exact foldl_scheduler_acc env now _ []

/-- C1. The spec's retention pass should delete each excess completed backup
"both the blob and the history record", leaving at most `keep_count`
completed results per tier. In the source the pass does neither: (1) the
per-database body crashes on the missing `use_engine_policy` field before
any pruning, so a retention run changes nothing at all (first conjunct);
(2) even the unreachable pruning fragment the claim cites calls
`StorageService.delete_backup`, which deletes only the BLOB — at the failing
input (daily tier enabled with `keep_count = 0`, one completed daily backup)
it empties the blob store yet the history still holds 1 > 0 completed daily
results. -/
theorem cleanup_pass_retains_history :
    (∀ (st : RetentionState) (dbs : List DatabaseConfig),
      cleanup_old_backups st dbs = st)
    ∧ cleanup_database_backups retentionTable retentionBlobs keepZeroPolicy "db1" = []
    ∧ completed_count_for_tier retentionTable "db1" "daily" = 1
    ∧ keepZeroPolicy.daily.enabled = true
    ∧ keepZeroPolicy.daily.keep_count = 0 := by
  refine ⟨fun st dbs => ?_, by decide, by decide, by decide, by decide⟩
  unfold cleanup_old_backups
  induction dbs generalizing st with
  | nil => rfl
  | cons d l ih => simpa [cleanup_process_database] using ih st

/-- C10. A queue message whose body does not parse into a `BackupJob` makes
the processor log and `return`: nothing is written to history, nothing is
raised (the message is consumed), and no record of the attempt exists. For
every successfully parsed job, whatever the pipeline does, the `finally`
block persists a final `BackupResult` carrying the job's id, and the handler
never raises. -/
theorem backup_processor_parse_and_persist :
    ∀ (env : ProcessorEnv) (rid : String) (deq : Int) (now : PyDateTime)
      (outcome : Except PyExc (Int × String)) (job : BackupJob),
      backup_processor env none rid deq now outcome =
        { table := env.table, blobs := env.blobs, finalResult := none, raised := false }
      ∧ (backup_processor env (some job) rid deq now outcome).raised = false
      ∧ ∃ r : BackupResult,
          (backup_processor env (some job) rid deq now outcome).finalResult = some r
          ∧ r.job_id = job.id
          ∧ to_table_entity r ∈ (backup_processor env (some job) rid deq now outcome).table := by
  intro env rid deq now outcome job
  refine ⟨rfl, ?_, ?_⟩
  · unfold backup_processor
    dsimp only
    split
    · rfl
    · cases outcome <;> rfl
  · unfold backup_processor
    dsimp only
    split
    · exact ⟨_, rfl, rfl, mem_upsert_entity _ _⟩
    · cases outcome
      · exact ⟨_, rfl, rfl, mem_upsert_entity _ _⟩
      · exact ⟨_, rfl, rfl, mem_upsert_entity _ _⟩

/-- C4. The spec: on a pipeline failure the worker records a failed result
with `retry_count = dequeue_count` and deletes the queue message ONLY when
`dequeue_count` reaches the poison threshold; below it the message should
reappear. The source records the failed result (with the claimed
`retry_count`) but swallows the exception and returns normally, so the
queue-trigger host completes — deletes — the message on EVERY failure,
whatever the dequeue count; no poison-threshold check exists. -/
theorem backup_processor_failure_completes_message :
    ∀ (env : ProcessorEnv) (job : BackupJob) (rid : String) (deq : Int)
      (now : PyDateTime) (exc : PyExc),
      (backup_processor env (some job) rid deq now (.error exc)).raised = false
      ∧ queue_message_deleted (backup_processor env (some job) rid deq now (.error exc)) = true
      ∧ ∃ r : BackupResult,
          (backup_processor env (some job) rid deq now (.error exc)).finalResult = some r
          ∧ r.status = .failed
          ∧ r.retry_count = deq
          ∧ to_table_entity r ∈ (backup_processor env (some job) rid deq now (.error exc)).table := by
  intro env job rid deq now exc
  refine ⟨?_, ?_, ?_⟩
  · unfold backup_processor
    dsimp only
    split <;> rfl
  · unfold backup_processor queue_message_deleted
    dsimp only
    split <;> rfl
  · unfold backup_processor
    dsimp only
    split
    · exact ⟨_, rfl, rfl, rfl, mem_upsert_entity _ _⟩
    · exact ⟨_, rfl, rfl, rfl, mem_upsert_entity _ _⟩

/-- C4, counterexample: at dequeue count 1 — far below the poison threshold
of 5 — the failed message is still completed (deleted): "delete only if
dequeue_count ≥ 5, otherwise let it reappear" is false on the code. -/
theorem backup_processor_poison_threshold_cex :
    queue_message_deleted procFailOut = true
    ∧ ¬ ((5 : Int) ≤ 1)
    ∧ procFailOut.finalResult.map (fun r => (r.status, r.retry_count)) =
        some (.failed, 1) := by
  refine ⟨by decide, by decide, by decide⟩

/-- C9, amended. The spec says backup artifacts are uploaded with content
type `application/gzip` when compressed and `application/sql` otherwise. The
worker's call to `upload_backup` passes no `content_type` at all, so every
artifact is stored with the DEFAULT `application/octet-stream`, whatever the
compression flag or format: the uploaded blob carries that content type, and
no blob of that name carries any other. -/
theorem backup_processor_upload_content_type :
    ∀ (env : ProcessorEnv) (job : BackupJob) (rid : String) (deq : Int)
      (now : PyDateTime) (size : Int) (fmt : String),
      truthyOpt (resolve_processor_password env job) = true →
      (BlobItem.mk (processor_blob_name job now fmt) "application/octet-stream" ∈
        (backup_processor env (some job) rid deq now (.ok (size, fmt))).blobs)
      ∧ ∀ b ∈ (backup_processor env (some job) rid deq now (.ok (size, fmt))).blobs,
          b.name = processor_blob_name job now fmt →
          b.content_type = "application/octet-stream" := by
  intro env job rid deq now size fmt h
  unfold backup_processor
  dsimp only
  simp only [h, Bool.not_true, Bool.false_eq_true, if_false]
  constructor
  · exact List.mem_append.mpr (Or.inr (List.mem_singleton.mpr rfl))
  · intro b hb hname
    rcases List.mem_append.mp hb with hl | hr
    · have := (List.mem_filter.mp hl).2
      simp only [decide_eq_true_eq] at this
      exact absurd hname this
    · rw [List.mem_singleton.mp hr]

/-- C9, counterexample: a compressed (`compression=true`) postgres backup is
stored as `application/octet-stream`, not `application/gzip`. -/
theorem backup_processor_content_type_cex :
    procJob.compression = true
    ∧ BlobItem.mk (processor_blob_name procJob sampleNow "sql.gz")
        "application/octet-stream" ∈ procOkOut.blobs
    ∧ BlobItem.mk (processor_blob_name procJob sampleNow "sql.gz")
        "application/gzip" ∉ procOkOut.blobs := by
  refine ⟨by decide, by decide, by decide⟩

/-- C9, witness for the amended theorem at the concrete compressed job. -/
theorem backup_processor_upload_content_type_witness :
    (BlobItem.mk (processor_blob_name procJob sampleNow "sql.gz")
      "application/octet-stream" ∈ procOkOut.blobs)
    ∧ ∀ b ∈ procOkOut.blobs,
        b.name = processor_blob_name procJob sampleNow "sql.gz" →
        b.content_type = "application/octet-stream" :=
  backup_processor_upload_content_type procEnv procJob "rid-2" 1 sampleNow 2048 "sql.gz"
    (by decide)

/-- C8. Deleting a backup policy is guarded exactly as specified: for a
policy found in the store, if it is a system policy the API answers 400
"System policies cannot be deleted", the store is unchanged, and the storage
layer's own delete refuses (returns false, row kept); if it is a non-system
policy referenced by n ≥ 1 databases the API answers 400 with
"Policy is in use by n database(s). Reassign them first." and the store is
unchanged. -/
theorem delete_backup_policy_guards :
    ∀ (policies : List BackupPolicy) (databases : List DatabaseConfig)
      (policy_id : String) (p : BackupPolicy),
      get_backup_policy policies policy_id = some p →
      ((p.is_system = true →
          (api_delete_backup_policy policies databases policy_id).1 =
            { status := 400, error := "System policies cannot be deleted" }
          ∧ (api_delete_backup_policy policies databases policy_id).2 = policies
          ∧ storage_delete_backup_policy policies policy_id = (false, policies))
      ∧ (p.is_system = false → 0 < get_databases_using_policy databases policy_id →
          (api_delete_backup_policy policies databases policy_id).1 =
            { status := 400
              error := "Policy is in use by " ++
                toString (get_databases_using_policy databases policy_id) ++
                " database(s). Reassign them first." }
          ∧ (api_delete_backup_policy policies databases policy_id).2 = policies)) := by
  intro policies databases policy_id p hget
  constructor
  · intro hsys
    refine ⟨?_, ?_, ?_⟩
    · unfold api_delete_backup_policy
      rw [hget]
      simp [hsys]
    · unfold api_delete_backup_policy
      rw [hget]
      simp [hsys]
    · unfold storage_delete_backup_policy
      rw [hget]
      simp [hsys]
  · intro hsys husage
    constructor
    · unfold api_delete_backup_policy
      rw [hget]
      simp [hsys, husage]
    · unfold api_delete_backup_policy
      rw [hget]
      simp [hsys, husage]

/-- C8, witness: DELETE on the seeded system policy `production-critical`
gives 400 with the exact message and no store change; DELETE on a custom
policy referenced by two databases gives 400 "Policy is in use by 2
database(s). Reassign them first.". -/
theorem delete_backup_policy_guards_witness :
    (api_delete_backup_policy policiesW databasesW "production-critical").1 =
      { status := 400, error := "System policies cannot be deleted" }
    ∧ storage_delete_backup_policy policiesW "production-critical" = (false, policiesW)
    ∧ (api_delete_backup_policy policiesW databasesW "custom-x").1 =
      { status := 400, error := "Policy is in use by 2 database(s). Reassign them first." }
    ∧ get_databases_using_policy databasesW "custom-x" = 2 := by
  have h1 := (delete_backup_policy_guards policiesW databasesW "production-critical"
    criticalPolicy (by decide)).1 rfl
  have h2 := (delete_backup_policy_guards policiesW databasesW "custom-x"
    customPolicyW (by decide)).2 rfl (by decide)
  exact ⟨h1.1, h1.2.2, h2.1.trans (by decide), by decide⟩

/-- C3. For an enabled tier configuration, `should_run_tier` is exactly the
spec's predicate: it fires when `last` is nil (whatever the tier name);
hourly fires iff `now - last` is at least `interval_hours` hours; daily fires
iff `now` has reached today's date at `cfg.time` (inclusive) and `last` is
strictly before that moment; weekly additionally requires the day of week
`(weekday_monday_zero + 1) mod 7` (Sunday = 0) to equal `cfg.day_of_week`,
monthly the day of month, and yearly the month and the day of month, each
then applying the daily rule. -/
theorem should_run_tier_matches_spec (cfg : TierConfig) (last now : PyDateTime)
    (h : cfg.enabled = true) :
    (∀ t : String, should_run_tier t cfg none now = true)
    ∧ (should_run_tier "hourly" cfg (some last) now = true ↔
        cfg.interval_hours * 3600000000 ≤ toMicros now - toMicros last)
    ∧ (should_run_tier "daily" cfg (some last) now = true ↔
        (toMicros (daily_scheduled cfg now) ≤ toMicros now ∧
         toMicros last < toMicros (daily_scheduled cfg now)))
    ∧ (should_run_tier "weekly" cfg (some last) now = true ↔
        ((pyWeekday now + 1) % 7 = cfg.day_of_week ∧
         toMicros (daily_scheduled cfg now) ≤ toMicros now ∧
         toMicros last < toMicros (daily_scheduled cfg now)))
    ∧ (should_run_tier "monthly" cfg (some last) now = true ↔
        (now.day = cfg.day_of_month ∧
         toMicros (daily_scheduled cfg now) ≤ toMicros now ∧
         toMicros last < toMicros (daily_scheduled cfg now)))
    ∧ (should_run_tier "yearly" cfg (some last) now = true ↔
        (now.month = cfg.month ∧ now.day = cfg.day_of_month ∧
         toMicros (daily_scheduled cfg now) ≤ toMicros now ∧
         toMicros last < toMicros (daily_scheduled cfg now))) := by
  refine ⟨?_, ?_, ?_, ?_, ?_, ?_⟩
  · intro t
    simp [should_run_tier, h]
  · simp only [should_run_tier, h, Bool.not_true, Bool.false_eq_true, if_false,
      decide_eq_true_eq, ge_iff_le, if_true]
    rw [div_div]
    norm_num
    rw [le_div_iff₀ (by norm_num : (0 : ℚ) < 3600000000)]
    constructor
    · intro h1
      exact_mod_cast h1
    · intro h1
      exact_mod_cast h1
  · simp [should_run_tier, h, daily_scheduled]
  · by_cases hdw : (pyWeekday now + 1) % 7 = cfg.day_of_week <;>
      simp [should_run_tier, h, daily_scheduled, hdw]
  · by_cases hdm : now.day = cfg.day_of_month <;>
      simp [should_run_tier, h, daily_scheduled, hdm]
  · by_cases hm : now.month = cfg.month <;>
      by_cases hdm : now.day = cfg.day_of_month <;>
        simp [should_run_tier, h, daily_scheduled, hm, hdm]

/-- C3, witness: at the concrete configurations the daily tier fires at
exactly 02:00:00 and not at 01:59:59, and the 2-hour hourly tier fires at
exactly +2h (02:00 after a midnight backup) and not one second earlier. -/
theorem should_run_tier_matches_spec_witness :
    dailyCfgW.enabled = true
    ∧ should_run_tier "daily" dailyCfgW (some lastDailyW) sampleNow = true
    ∧ should_run_tier "daily" dailyCfgW (some lastDailyW) nowEarlyW = false
    ∧ should_run_tier "hourly" hourlyCfgW (some lastHourlyW) sampleNow = true
    ∧ should_run_tier "hourly" hourlyCfgW (some lastHourlyW) nowEarlyW = false := by
  have hd1 := (should_run_tier_matches_spec dailyCfgW lastDailyW sampleNow rfl).2.2.1
  have hd2 := (should_run_tier_matches_spec dailyCfgW lastDailyW nowEarlyW rfl).2.2.1
  have hh1 := (should_run_tier_matches_spec hourlyCfgW lastHourlyW sampleNow rfl).2.1
  have hh2 := (should_run_tier_matches_spec hourlyCfgW lastHourlyW nowEarlyW rfl).2.1
  refine ⟨rfl, hd1.mpr (by decide), ?_, hh1.mpr (by decide), ?_⟩
  · exact Bool.eq_false_iff.mpr (fun hx => (by decide : ¬ _) (hd2.mp hx))
  · exact Bool.eq_false_iff.mpr (fun hx => (by decide : ¬ _) (hh2.mp hx))

lemma pyDigitChar_lt {a b : Nat} (hab : a < b) (hb : b < 10) :
    pyDigitChar a < pyDigitChar b := by
  interval_cases b <;> interval_cases a <;> decide

lemma char_lt_irrefl (c : Char) : ¬ c < c :=
  lt_irrefl c

lemma digitsFixed_length (w n : Nat) : (digitsFixed w n).length = w := by
  induction w generalizing n with
  | zero => rfl
  | succ w ih => simp [digitsFixed, ih]

/-- Fixed-width decimal digit strings compare lexicographically like the
numbers they denote, whatever follows them. -/
lemma digitsFixed_lt_append :
    ∀ (w : Nat) {n m : Nat} (a b : List Char), n < m → m < 10 ^ w →
      List.lt ((digitsFixed w n).map pyDigitChar ++ a)
        ((digitsFixed w m).map pyDigitChar ++ b) := by
  intro w
  induction w with
  | zero =>
    intro n m a b hnm hm
    norm_num at hm
    omega
  | succ w ih =>
    intro n m a b hnm hm
    have hpow : 0 < 10 ^ w := pow_pos (by norm_num) w
    have hq : n / 10 ^ w ≤ m / 10 ^ w := Nat.div_le_div_right hnm.le
    have hm10 : m / 10 ^ w < 10 := by
      rw [Nat.div_lt_iff_lt_mul hpow]
      rw [pow_succ] at hm
      omega
    simp only [digitsFixed, List.map_cons, List.cons_append]
    rcases Nat.lt_or_ge (n / 10 ^ w) (m / 10 ^ w) with hlt | hge
    · exact List.lt.head _ _ (pyDigitChar_lt hlt hm10)
    · have heq : n / 10 ^ w = m / 10 ^ w := le_antisymm hq hge
      refine List.lt.tail ?_ ?_ ?_
      · rw [heq]
        exact char_lt_irrefl _
      · rw [heq]
        exact char_lt_irrefl _
      · apply ih
        · have h1 := Nat.div_add_mod n (10 ^ w)
          have h2 := Nat.div_add_mod m (10 ^ w)
          rw [heq] at h1
          have key : 10 ^ w * (m / 10 ^ w) + n % 10 ^ w <
              10 ^ w * (m / 10 ^ w) + m % 10 ^ w := by
            rw [h1, h2]
            exact hnm
          exact Nat.lt_of_add_lt_add_left key
        · exact Nat.mod_lt _ hpow

/-- The character list of a row key: 19 digit characters, an underscore, the
id's characters. -/
lemma rowKey_data (v : Int) (id : String) :
    (fmt019 v ++ "_" ++ id).data =
      (digitsFixed 19 v.toNat).map pyDigitChar ++ '_' :: id.data := by
  have hu : ("_" : String).data = ['_'] := rfl
  simp [fmt019, String.data_append, hu]

/-- C6. The history row key is the 19-digit zero-padded decimal of
`MAX_TICKS - ticks(created_at)`, an underscore, and the result id; and for
two results in one partition with in-range timestamps, the later `created_at`
yields the lexicographically SMALLER row key — ascending key iteration is
descending chronology. -/
theorem row_key_lex_antitone :
    ∀ (r1 r2 : BackupResult),
      0 ≤ ticksOf r1.created_at →
      ticksOf r2.created_at ≤ maxTicks →
      ticksOf r1.created_at < ticksOf r2.created_at →
      (to_table_entity r1).PartitionKey = (to_table_entity r2).PartitionKey →
      ((to_table_entity r1).RowKey =
          fmt019 (maxTicks - ticksOf r1.created_at) ++ "_" ++ r1.id
        ∧ (to_table_entity r2).RowKey =
          fmt019 (maxTicks - ticksOf r2.created_at) ++ "_" ++ r2.id
        ∧ strLexLt (to_table_entity r2).RowKey (to_table_entity r1).RowKey) := by
  intro r1 r2 h0 hmax hlt _hpart
  refine ⟨rfl, rfl, ?_⟩
  show List.lt (fmt019 (maxTicks - ticksOf r2.created_at) ++ "_" ++ r2.id).data
    (fmt019 (maxTicks - ticksOf r1.created_at) ++ "_" ++ r1.id).data
  rw [rowKey_data, rowKey_data]
  apply digitsFixed_lt_append
  · unfold maxTicks at *
    omega
  · have h19 : (10 : Nat) ^ 19 = 10000000000000000000 := by norm_num
    rw [h19]
    unfold maxTicks at *
    omega

/-- C6, witness: two same-day results three hours apart; the later one's row
key is lexicographically smaller. -/
theorem row_key_lex_antitone_witness :
    0 ≤ ticksOf r6early.created_at
    ∧ ticksOf r6late.created_at ≤ maxTicks
    ∧ ticksOf r6early.created_at < ticksOf r6late.created_at
    ∧ (to_table_entity r6early).PartitionKey = (to_table_entity r6late).PartitionKey
    ∧ strLexLt (to_table_entity r6late).RowKey (to_table_entity r6early).RowKey := by
  refine ⟨by decide, by decide, by decide, by decide, ?_⟩
  exact (row_key_lex_antitone r6early r6late (by decide) (by decide) (by decide)
    (by decide)).2.2

lemma pyDigitChar_ne_underscore (d : Nat) : pyDigitChar d ≠ '_' := by
  rcases d with _ | _ | _ | _ | _ | _ | _ | _ | _ | d
  · decide
  · decide
  · decide
  · decide
  · decide
  · decide
  · decide
  · decide
  · decide
  · show ('9' : Char) ≠ '_'
    decide

lemma afterFirstUnderscore_append (L t : List Char) (hL : ∀ c ∈ L, c ≠ '_') :
    afterFirstUnderscore (L ++ '_' :: t) = t := by
  induction L with
  | nil => simp [afterFirstUnderscore]
  | cons c cs ih =>
    have hc : c ≠ '_' := hL c (List.mem_cons_self c cs)
    simp only [List.cons_append, afterFirstUnderscore, if_neg hc]
    exact ih (fun x hx => hL x (List.mem_cons_of_mem c hx))

lemma data_ne_nil_of_ne_empty {s : String} (h : s ≠ "") : s.data ≠ [] := by
  intro hd
  apply h
  cases s with
  | mk d =>
    simp only at hd
    rw [hd]

lemma getD_zero_norm_rat (o : Option ℚ) :
    (if o.getD 0 = 0 then none else some (o.getD 0)) = normOptRat o := by
  cases o <;> simp [normOptRat]

lemma getD_zero_norm_int (o : Option Int) :
    (if o.getD 0 = 0 then none else some (o.getD 0)) = normOptInt o := by
  cases o <;> simp [normOptInt]

lemma getD_empty_norm_str (o : Option String) :
    (if o.getD "" = "" then none else some (o.getD "")) = normOptStr o := by
  cases o <;> simp [normOptStr]

lemma ofValue_value_database_type (t : DatabaseType) :
    DatabaseType.ofValue t.value = some t := by
  cases t <;> rfl

lemma ofValue_value_backup_status (s : BackupStatus) :
    BackupStatus.ofValue s.value = some s := by
  cases s <;> rfl

/-- C7, amended. Decoding an encoded `BackupResult` gives back the result
with every falsy optional field collapsed to `None` (the codec stores
`field or ""` / `field or 0` and restores `value or None`), the id being cut
back out of the row key — exact identity only on results with no falsy-but-
present optional field. Needs a non-empty id (else the row-key length guard
keeps the whole row key as the id). -/
theorem to_from_table_entity_roundtrip (r : BackupResult) (h : r.id ≠ "") :
    from_table_entity (to_table_entity r) = some (normalize_falsy r) := by
  have hdata : (to_table_entity r).RowKey.data =
      (digitsFixed 19 (maxTicks - ticksOf r.created_at).toNat).map pyDigitChar ++
        '_' :: r.id.data :=
    rowKey_data _ _
  have hmem : ('_' : Char) ∈ (to_table_entity r).RowKey.data := by
    rw [hdata]
    exact List.mem_append_right _ (List.mem_cons_self _ _)
  have hcontains : (to_table_entity r).RowKey.data.contains '_' = true := by
    simpa using hmem
  have hlen : 20 < (to_table_entity r).RowKey.length := by
    show 20 < (to_table_entity r).RowKey.data.length
    rw [hdata]
    simp only [List.length_append, List.length_map, digitsFixed_length,
      List.length_cons]
    have hpos : 0 < r.id.data.length :=
      List.length_pos.mpr (data_ne_nil_of_ne_empty h)
    omega
  have hcond : ((to_table_entity r).RowKey.data.contains '_' &&
      decide (20 < (to_table_entity r).RowKey.length)) = true := by
    rw [hcontains, decide_eq_true hlen]
    rfl
  have hid : String.mk (afterFirstUnderscore (to_table_entity r).RowKey.data) =
      r.id := by
    rw [hdata, afterFirstUnderscore_append _ _ (fun c hc => by
      obtain ⟨d, _, hd⟩ := List.mem_map.mp hc
      rw [← hd]
      exact pyDigitChar_ne_underscore d)]
  have hofdbt : DatabaseType.ofValue (to_table_entity r).database_type =
      some r.database_type := ofValue_value_database_type r.database_type
  have hofst : BackupStatus.ofValue (to_table_entity r).status =
      some r.status := ofValue_value_backup_status r.status
  unfold from_table_entity
  rw [hofdbt, hofst]
  dsimp only
  rw [if_pos hcond, hid]
  refine congrArg some ?_
  show ({ id := r.id
          job_id := (to_table_entity r).job_id
          database_id := (to_table_entity r).database_id
          database_name := (to_table_entity r).database_name
          database_type := r.database_type
          status := r.status
          started_at := (to_table_entity r).started_at
          completed_at := (to_table_entity r).completed_at
          duration_seconds := if (to_table_entity r).duration_seconds = 0 then none
            else some (to_table_entity r).duration_seconds
          blob_name := if (to_table_entity r).blob_name = "" then none
            else some (to_table_entity r).blob_name
          blob_url := if (to_table_entity r).blob_url = "" then none
            else some (to_table_entity r).blob_url
          file_size_bytes := if (to_table_entity r).file_size_bytes = 0 then none
            else some (to_table_entity r).file_size_bytes
          file_format := if (to_table_entity r).file_format = "" then none
            else some (to_table_entity r).file_format
          error_message := if (to_table_entity r).error_message = "" then none
            else some (to_table_entity r).error_message
          error_details := if (to_table_entity r).error_details = "" then none
            else some (to_table_entity r).error_details
          retry_count := (to_table_entity r).retry_count
          triggered_by := (to_table_entity r).triggered_by
          tier := if (to_table_entity r).tier = "" then none
            else some (to_table_entity r).tier
          created_at := (to_table_entity r).created_at } : BackupResult) =
    normalize_falsy r
  simp only [normalize_falsy]
  congr 1
  · exact getD_zero_norm_rat r.duration_seconds
  · exact getD_empty_norm_str r.blob_name
  · exact getD_empty_norm_str r.blob_url
  · exact getD_zero_norm_int r.file_size_bytes
  · exact getD_empty_norm_str r.file_format
  · exact getD_empty_norm_str r.error_message
  · exact getD_empty_norm_str r.error_details
  · exact getD_empty_norm_str r.tier

/-- C7, counterexample: a result with `duration_seconds = 0.0` does not
round-trip to itself — the stored `duration_seconds or 0` reads back as
`None` (`value or None`), so the claimed identity on every field fails. -/
theorem to_from_table_entity_roundtrip_cex :
    from_table_entity (to_table_entity r7zeroDuration) ≠ some r7zeroDuration
    ∧ (from_table_entity (to_table_entity r7zeroDuration)).map
        (fun r => r.duration_seconds) = some none
    ∧ r7zeroDuration.duration_seconds = some 0 := by
  refine ⟨by decide, by decide, by decide⟩

/-- C7, witness for the amended round-trip at a concrete completed result. -/
theorem to_from_table_entity_roundtrip_witness :
    sampleCompletedBackup.id ≠ ""
    ∧ from_table_entity (to_table_entity sampleCompletedBackup) =
        some (normalize_falsy sampleCompletedBackup) :=
  ⟨by decide, to_from_table_entity_roundtrip sampleCompletedBackup (by decide)⟩

lemma insertDescByCreated_perm (x : BackupResult) (l : List BackupResult) :
    List.Perm (insertDescByCreated x l) (x :: l) := by
  induction l with
  | nil => exact List.Perm.refl _
  | cons y ys ih =>
    unfold insertDescByCreated
    split
    · exact (ih.cons y).trans (List.Perm.swap x y ys)
    · exact List.Perm.refl _

lemma sortByCreatedDesc_perm (l : List BackupResult) :
    List.Perm (sortByCreatedDesc l) l := by
  induction l with
  | nil => exact List.Perm.refl _
  | cons x xs ih => exact (insertDescByCreated_perm x _).trans (ih.cons x)

lemma pairwise_insertDescByCreated (x : BackupResult) (l : List BackupResult)
    (h : l.Pairwise (fun a b => createdKey b ≤ createdKey a)) :
    (insertDescByCreated x l).Pairwise (fun a b => createdKey b ≤ createdKey a) := by
  induction l with
  | nil => simp [insertDescByCreated]
  | cons y ys ih =>
    rw [List.pairwise_cons] at h
    unfold insertDescByCreated
    split
    next hxy =>
      rw [List.pairwise_cons]
      refine ⟨?_, ih h.2⟩
      intro z hz
      rcases List.mem_cons.mp ((insertDescByCreated_perm x ys).mem_iff.mp hz) with
        hz' | hz'
      · rw [hz']
        exact hxy.le
      · exact h.1 z hz'
    next hxy =>
      rw [List.pairwise_cons]
      refine ⟨?_, List.pairwise_cons.mpr h⟩
      intro z hz
      rcases List.mem_cons.mp hz with hz' | hz'
      · rw [hz']
        exact not_lt.mp hxy
      · exact (h.1 z hz').trans (not_lt.mp hxy)

lemma pairwise_sortByCreatedDesc (l : List BackupResult) :
    (sortByCreatedDesc l).Pairwise (fun a b => createdKey b ≤ createdKey a) := by
  induction l with
  | nil => simp [sortByCreatedDesc]
  | cons x xs ih => exact pairwise_insertDescByCreated x _ ih

lemma exists_find?_of_mem {p : BackupResult → Bool} {l : List BackupResult}
    {b : BackupResult} (hb : b ∈ l) (hp : p b = true) :
    ∃ M, l.find? p = some M := by
  induction l with
  | nil => cases hb
  | cons x xs ih =>
    by_cases hx : p x = true
    · exact ⟨x, List.find?_cons_of_pos _ hx⟩
    · rcases List.mem_cons.mp hb with heq | hmem
      · exact absurd (heq ▸ hp) hx
      · obtain ⟨M, hM⟩ := ih hmem
        exact ⟨M, by rw [List.find?_cons_of_neg _ (by simpa using hx), hM]⟩

lemma find?_max_of_pairwise {p : BackupResult → Bool} {l : List BackupResult}
    {M : BackupResult}
    (hsort : l.Pairwise (fun a b => createdKey b ≤ createdKey a))
    (hM : l.find? p = some M) :
    ∀ m ∈ l, p m = true → createdKey m ≤ createdKey M := by
  induction l with
  | nil => simp at hM
  | cons x xs ih =>
    rw [List.pairwise_cons] at hsort
    by_cases hx : p x = true
    · rw [List.find?_cons_of_pos _ hx] at hM
      have hMx : M = x := (Option.some.injEq _ _ ▸ hM).symm
      intro m hm _
      rcases List.mem_cons.mp hm with heq | hmem
      · rw [heq, hMx]
      · rw [hMx]
        exact hsort.1 m hmem
    · rw [List.find?_cons_of_neg _ (by simpa using hx)] at hM
      intro m hm hpm
      rcases List.mem_cons.mp hm with heq | hmem
      · rw [heq] at hpm
        exact absurd hpm hx
      · exact ih hsort.2 hM m hmem hpm

/-- C5, amended. When a database has at most 100 parseable history rows (the
hard-coded `limit` of `get_last_backup_for_tier`), the value it computes is
`completed_at` of a most recent completed result matching the tier (legacy
tier-less rows matching `"daily"`), and `None` when no row matches. With
more than 100 rows the limit truncates the rows in raw table order BEFORE
sorting, and the claim fails (see the counterexample). -/
theorem last_backup_for_tier_within_limit :
    ∀ (table : List TableEntity) (database_id tier : String),
      (database_history_rows table database_id).length ≤ 100 →
      ((∃ b ∈ database_history_rows table database_id,
          isCompletedForTier tier b = true) →
        ∃ M ∈ database_history_rows table database_id,
          isCompletedForTier tier M = true
          ∧ get_last_backup_for_tier table database_id tier = M.completed_at
          ∧ ∀ m ∈ database_history_rows table database_id,
              isCompletedForTier tier m = true →
              toMicros m.created_at ≤ toMicros M.created_at)
      ∧ ((∀ b ∈ database_history_rows table database_id,
            isCompletedForTier tier b = false) →
          get_last_backup_for_tier table database_id tier = none) := by
  intro table dbid tier hlen
  have hrows : get_backup_history table (some dbid) 100 =
      sortByCreatedDesc (database_history_rows table dbid) := by
    show sortByCreatedDesc ((database_history_rows table dbid).take 100) =
      sortByCreatedDesc (database_history_rows table dbid)
    rw [List.take_of_length_le hlen]
  have hperm := sortByCreatedDesc_perm (database_history_rows table dbid)
  have hsort := pairwise_sortByCreatedDesc (database_history_rows table dbid)
  constructor
  · rintro ⟨b, hb, hpb⟩
    have hbs : b ∈ sortByCreatedDesc (database_history_rows table dbid) :=
      hperm.mem_iff.mpr hb
    obtain ⟨M, hM⟩ := exists_find?_of_mem hbs hpb
    have hMmem : M ∈ sortByCreatedDesc (database_history_rows table dbid) :=
      List.mem_of_find?_eq_some hM
    have hpM : isCompletedForTier tier M = true := List.find?_some hM
    refine ⟨M, hperm.mem_iff.mp hMmem, hpM, ?_, ?_⟩
    · unfold get_last_backup_for_tier
      rw [hrows]
      dsimp only
      rw [hM]
    · intro m hm hpm
      exact find?_max_of_pairwise hsort hM m (hperm.mem_iff.mpr hm) hpm
  · intro hall
    unfold get_last_backup_for_tier
    rw [hrows]
    dsimp only
    rw [List.find?_eq_none.mpr (fun x hx => by
      simp [hall x (hperm.mem_iff.mp hx)])]

set_option maxRecDepth 40000 in
/-- C5, counterexample to the claim as stated: 101 history rows for one
database (100 older rows in the 2024-03-14 partition, then the newest backup
in the 2024-03-15 partition — the order Azure yields the partitions in).
The 100-row limit cuts the newest row BEFORE sorting, so the scheduler's
lookup returns the completed_at of an old 2024-03-14 row, NOT the timestamp
of the most recent completed result of the tier. -/
theorem last_backup_for_tier_limit_cex :
    get_last_backup_for_tier limitTable "db1" "daily" =
      some { year := 2024, month := 3, day := 14, hour := 2, microsecond := 99 }
    ∧ newestBackup.completed_at = some { year := 2024, month := 3, day := 15, hour := 2 }
    ∧ get_last_backup_for_tier limitTable "db1" "daily" ≠ newestBackup.completed_at
    ∧ (∃ rN ∈ database_history_rows limitTable "db1",
        isCompletedForTier "daily" rN = true
        ∧ rN.completed_at = newestBackup.completed_at
        ∧ ∀ m ∈ database_history_rows limitTable "db1",
            toMicros m.created_at ≤ toMicros rN.created_at) := by
  refine ⟨by decide, by decide, by decide, by decide⟩

/-- C5, witness for the amended theorem on a two-row table. -/
theorem last_backup_for_tier_within_limit_witness :
    (database_history_rows smallTable "db1").length ≤ 100
    ∧ ∃ M ∈ database_history_rows smallTable "db1",
        isCompletedForTier "daily" M = true
        ∧ get_last_backup_for_tier smallTable "db1" "daily" = M.completed_at
        ∧ ∀ m ∈ database_history_rows smallTable "db1",
            isCompletedForTier "daily" m = true →
            toMicros m.created_at ≤ toMicros M.created_at := by
  refine ⟨by decide, (last_backup_for_tier_within_limit smallTable "db1" "daily"
    (by decide)).1 ?_⟩
  decide

end Dilux
